import Mathlib

/-!
Verification of the markovchain-client-lib Rust library against its
natural-language specification, via a shallow embedding in Lean 4.

Source files embedded:
  - src/content_string.rs : the bounded text value (ContentString)
  - src/error.rs          : the error taxonomy (Error)
  - src/lib.rs            : the service client (MarkovChainClient)

Rust strings are UTF-8; String.len() in Rust returns the UTF-8 byte
length, which we model with String.utf8ByteSize on Lean strings.
The HTTP transport (reqwest) is modelled as an oracle function supplied
as an argument: it maps a request (endpoint URL and body) either to a
transport failure or to a completed Response with a status code and a
body text.
-/

/-- Embeds ContentStringError from src/content_string.rs: the two
validation failure variants Empty and TooLong with its length and max
fields. -/
inductive ContentStringError where
  | empty : ContentStringError
  | tooLong (length : Nat) (max : Nat) : ContentStringError
deriving DecidableEq, Repr

/-- Embeds ContentString from src/content_string.rs: a newtype wrapper
around a string. The length invariant is established by the factory
ContentString.new below, not by the type itself, mirroring the Rust
tuple struct with a private field. -/
structure ContentString where
  val : String
deriving DecidableEq, Repr

/-- Embeds ContentString::MAX_LEN, the constant 2000. -/
def ContentString.MAX_LEN : Nat := 2000

/-- Embeds ContentString::new: computes len = s.len() (UTF-8 byte
length), returns Empty if len == 0, TooLong if len > MAX_LEN, and
otherwise wraps the string unchanged. -/
def ContentString.new (s : String) : Except ContentStringError ContentString :=
  let len := s.utf8ByteSize
  if len = 0 then
    Except.error ContentStringError.empty
  else if len > ContentString.MAX_LEN then
    Except.error (ContentStringError.tooLong len ContentString.MAX_LEN)
  else
    Except.ok (ContentString.mk s)

/-- Embeds ContentString::as_str: a borrowed view of the wrapped
string. -/
def ContentString.as_str (c : ContentString) : String := c.val

/-- Embeds ContentString::into_inner: consumes the wrapper and yields
the wrapped string. -/
def ContentString.into_inner (c : ContentString) : String := c.val

/-- Embeds the str::to_string call in the TryFrom impl for string
slices: it produces an owned string with the same text, which in this
embedding is the identity. -/
def strToOwnedString (value : String) : String := value

/-- Embeds the TryFrom implementation for owned strings in
src/content_string.rs: it delegates to ContentString::new. -/
def ContentString.tryFromString (value : String) : Except ContentStringError ContentString :=
  ContentString.new value

/-- Embeds the TryFrom implementation for string slices in
src/content_string.rs: it converts the slice to an owned string and
delegates to ContentString::new. -/
def ContentString.tryFromStr (value : String) : Except ContentStringError ContentString :=
  ContentString.new (strToOwnedString value)

/-- Minimal JSON value tree covering the shapes serde_json produces for
this library: null, strings, non-negative numbers (usize) and objects
with string keys in declaration order. -/
inductive Json where
  | null : Json
  | str (s : String) : Json
  | num (n : Nat) : Json
  | obj (fields : List (String × Json)) : Json
deriving Repr

/-- Lowercase hexadecimal digit, as used by the serde_json escape table
for control characters. -/
def hexDigitChar (n : Nat) : Char :=
  if n < 10 then Char.ofNat (48 + n) else Char.ofNat (87 + n)

/-- Models the serde_json escaping of a single character inside a JSON
string literal: quote and backslash get a backslash escape, the control
characters backspace, tab, newline, form feed and carriage return get
their short escapes, the remaining control characters below 0x20 get a
lowercase unicode escape, and every other character is emitted
verbatim. -/
def escapeJsonChar (c : Char) : String :=
  if c = Char.ofNat 34 then "\\\""
  else if c = Char.ofNat 92 then "\\\\"
  else if c = Char.ofNat 8 then "\\b"
  else if c = Char.ofNat 9 then "\\t"
  else if c = Char.ofNat 10 then "\\n"
  else if c = Char.ofNat 12 then "\\f"
  else if c = Char.ofNat 13 then "\\r"
  else if c.toNat < 32 then
    "\\u00" ++ String.singleton (hexDigitChar (c.toNat / 16))
      ++ String.singleton (hexDigitChar (c.toNat % 16))
  else String.singleton c

/-- Models serde_json escaping of a whole string. -/
def escapeJsonString (s : String) : String :=
  String.join (s.data.map escapeJsonChar)

/-- A JSON string literal: the escaped contents between double
quotes. -/
def jsonQuote (s : String) : String :=
  "\"" ++ escapeJsonString s ++ "\""

mutual

/-- Models serde_json::to_string rendering of a Json value (compact
form: no whitespace, fields in order, keys quoted). -/
def Json.render : Json → String
  | Json.null => "null"
  | Json.str s => jsonQuote s
  | Json.num n => Nat.repr n
  | Json.obj fields => "\x7b" ++ Json.renderFields fields ++ "\x7d"

/-- Renders the comma-separated field list of a JSON object. -/
def Json.renderFields : List (String × Json) → String
  | [] => ""
  | [field] => jsonQuote field.1 ++ ":" ++ Json.render field.2
  | field :: rest =>
      jsonQuote field.1 ++ ":" ++ Json.render field.2 ++ "," ++ Json.renderFields rest

end

/-- The keys of a JSON object, in emission order (empty for
non-objects). -/
def Json.keys : Json → List String
  | Json.obj fields => fields.map Prod.fst
  | _ => []

/-- Looks up the first value bound to a key in a JSON object. -/
def Json.lookupKey (j : Json) (key : String) : Option Json :=
  match j with
  | Json.obj fields => fields.lookup key
  | _ => none

/-- Discriminator: whether a JSON value is a plain string literal. -/
def Json.isStr : Json → Bool
  | Json.str _ => true
  | _ => false

/-- Embeds the Serialize implementation for ContentString in
src/content_string.rs: serializer.serialize_str on the wrapped string,
producing a plain JSON string. -/
def ContentString.toJson (c : ContentString) : Json :=
  Json.str c.val

/-- Embeds InputPayload from src/lib.rs: one ContentString field named
input. -/
structure InputPayload where
  input : ContentString
deriving DecidableEq, Repr

/-- Embeds GeneratePayload from src/lib.rs: an optional ContentString
field named start and an optional usize field named max_length. -/
structure GeneratePayload where
  start : Option ContentString
  max_length : Option Nat
deriving DecidableEq, Repr

/-- Embeds the derived Serialize for Option fields in serde: None
serializes as JSON null, Some x serializes as x does. Specialized to
ContentString values. -/
def optionContentStringToJson : Option ContentString → Json
  | none => Json.null
  | some c => ContentString.toJson c

/-- Embeds the derived Serialize for an optional usize field: None
serializes as JSON null, Some n as the number n. -/
def optionNatToJson : Option Nat → Json
  | none => Json.null
  | some n => Json.num n

/-- Embeds the derived Serialize for InputPayload: a JSON object with
the single field input, in declaration order. -/
def InputPayload.toJson (p : InputPayload) : Json :=
  Json.obj [("input", ContentString.toJson p.input)]

/-- Embeds the derived Serialize for GeneratePayload: a JSON object
with the fields start and max_length, in declaration order; both keys
are always emitted, absent options as null. -/
def GeneratePayload.toJson (p : GeneratePayload) : Json :=
  Json.obj [("start", optionContentStringToJson p.start),
            ("max_length", optionNatToJson p.max_length)]

/-- Minimal model of url::Url sufficient for this client: a scheme, a
host, and the path as a list of segments (the path of http://h/ is the
single empty segment). -/
structure Url where
  scheme : String
  host : String
  path : List String
deriving DecidableEq, Repr

/-- Models url::Url::join for a relative reference that is a single
plain path segment without a slash, a scheme or special characters
(the only references this client uses are input and generate). Per RFC
3986 relative resolution, such a reference replaces the last segment of
the base path. -/
def Url.join (base : Url) (reference : String) : Url :=
  { base with path := base.path.dropLast ++ [reference] }

/-- Renders a Url back to its textual form. -/
def Url.render (u : Url) : String :=
  u.scheme ++ "://" ++ u.host ++ String.join (u.path.map (fun seg => "/" ++ seg))

/-- A completed HTTP exchange as seen by this client: the response
status code and the full response body text. -/
structure Response where
  status : Nat
  body : String
deriving DecidableEq, Repr

/-- An opaque transport-layer failure (reqwest::Error): connection
refused, timeout, malformed framing. Its content is irrelevant to the
claims; only its presence matters. -/
structure TransportFailure where
  message : String
deriving DecidableEq, Repr

/-- Embeds Error from src/error.rs: the four variants
InvalidContentString, Http, Json and Api with its status and body
fields. The Json payload (a serde_json::Error) is modelled as its
message text. -/
inductive Error where
  | invalidContentString (e : ContentStringError) : Error
  | http (t : TransportFailure) : Error
  | json (message : String) : Error
  | api (status : Nat) (body : String) : Error
deriving DecidableEq, Repr

/-- Models reqwest StatusCode::is_success: the status code lies in
200..=299. -/
def statusIsSuccess (status : Nat) : Bool :=
  decide (200 ≤ status) && decide (status ≤ 299)

/-- The HTTP transport oracle: maps an endpoint URL and a request body
to either a transport failure or a completed response. It stands for
the reqwest Client plus the remote service. -/
def HttpOracle : Type := Url → String → Except TransportFailure Response

/-- Embeds MarkovChainClient::serialize: serde_json::to_string mapped
into the Error type via Error::Json. serde_json::to_string fails only
when a Serialize implementation reports an error or a map has
non-string keys; the derived implementations embedded in Json values
here do neither, so rendering is total and the result is always ok. -/
def MarkovChainClient.serialize (j : Json) : Except Error String :=
  Except.ok (Json.render j)

/-- Embeds MarkovChainClient::get_url: self.addr.join(endpoint). -/
def MarkovChainClient.get_url (addr : Url) (endpoint : String) : Url :=
  Url.join addr endpoint

/-- Embeds MarkovChainClient::post: sends the body to the endpoint via
the transport; a transport failure becomes Error::Http, a completed
response with a success status is returned as is, and a completed
response with a non-success status becomes Error::Api carrying the
status and the full body text. -/
def MarkovChainClient.post (http : HttpOracle) (endpoint : Url) (payload : String) :
    Except Error Response :=
  match http endpoint payload with
  | Except.error t => Except.error (Error.http t)
  | Except.ok response =>
      if statusIsSuccess response.status then
        Except.ok response
      else
        Except.error (Error.api response.status response.body)

/-- The endpoint URL computed inside MarkovChainClient::input: the code
reads self.get_url("generate") there (not "input"). -/
def MarkovChainClient.inputEndpoint (addr : Url) : Url :=
  MarkovChainClient.get_url addr "generate"

/-- The endpoint URL computed inside MarkovChainClient::generate:
self.get_url("generate"). -/
def MarkovChainClient.generateEndpoint (addr : Url) : Url :=
  MarkovChainClient.get_url addr "generate"

/-- Embeds MarkovChainClient::input: resolve the endpoint, serialize
the payload, post it, and discard the successful response. -/
def MarkovChainClient.input (addr : Url) (http : HttpOracle) (payload : InputPayload) :
    Except Error Unit :=
  let endpoint := MarkovChainClient.inputEndpoint addr
  match MarkovChainClient.serialize (InputPayload.toJson payload) with
  | Except.error e => Except.error e
  | Except.ok body =>
      match MarkovChainClient.post http endpoint body with
      | Except.error e => Except.error e
      | Except.ok _ => Except.ok ()

/-- Embeds MarkovChainClient::generate: resolve the endpoint, serialize
the payload, post it, and return the full response body text. -/
def MarkovChainClient.generate (addr : Url) (http : HttpOracle) (payload : GeneratePayload) :
    Except Error String :=
  let endpoint := MarkovChainClient.generateEndpoint addr
  match MarkovChainClient.serialize (GeneratePayload.toJson payload) with
  | Except.error e => Except.error e
  | Except.ok body =>
      match MarkovChainClient.post http endpoint body with
      | Except.error e => Except.error e
      | Except.ok response => Except.ok response.body

/-- Discriminator: whether a client result is an Error::Api value. -/
def isApiError {α : Type} : Except Error α → Bool
  | Except.error (Error.api _ _) => true
  | _ => false

/-- A concrete base address, http://localhost/ (its path is the single
empty segment). -/
def exampleBase : Url :=
  Url.mk "http" "localhost" [""]

/-- Claim C1: the claim states that MarkovChainClient::input posts to
the input-named endpoint, base + "/input"-equivalent. The code instead
resolves its endpoint with get_url("generate"): at the base address
http://localhost/ the submit operation posts to
http://localhost/generate, not to http://localhost/input. -/
theorem claim_C1 :
    MarkovChainClient.inputEndpoint exampleBase
      = MarkovChainClient.get_url exampleBase "generate"
    ∧ Url.render (MarkovChainClient.inputEndpoint exampleBase) = "http://localhost/generate"
    ∧ (Url.render (MarkovChainClient.inputEndpoint exampleBase) == "http://localhost/input")
        = false := by
  refine ⟨rfl, rfl, ?_⟩
  decide

/-- Claim C2: whenever the HTTP exchange performed by input or by
generate completes with a non-success status, the operation returns
Error::Api carrying exactly that status and the full response body, and
whenever it completes with a success status the operation does not
return an Error::Api. -/
theorem claim_C2 (addr : Url) (http : HttpOracle) (p : InputPayload) (q : GeneratePayload)
    (rp rq : Response)
    (hp : http (MarkovChainClient.inputEndpoint addr)
            (Json.render (InputPayload.toJson p)) = Except.ok rp)
    (hq : http (MarkovChainClient.generateEndpoint addr)
            (Json.render (GeneratePayload.toJson q)) = Except.ok rq) :
    (statusIsSuccess rp.status = false →
      MarkovChainClient.input addr http p = Except.error (Error.api rp.status rp.body))
    ∧ (statusIsSuccess rp.status = true →
      isApiError (MarkovChainClient.input addr http p) = false)
    ∧ (statusIsSuccess rq.status = false →
      MarkovChainClient.generate addr http q = Except.error (Error.api rq.status rq.body))
    ∧ (statusIsSuccess rq.status = true →
      isApiError (MarkovChainClient.generate addr http q) = false) := by
  refine ⟨?_, ?_, ?_, ?_⟩
  · intro h
    simp [MarkovChainClient.input, MarkovChainClient.serialize, MarkovChainClient.post, hp, h]
  · intro h
    simp [MarkovChainClient.input, MarkovChainClient.serialize, MarkovChainClient.post, hp, h,
      isApiError]
  · intro h
    simp [MarkovChainClient.generate, MarkovChainClient.serialize, MarkovChainClient.post, hq, h]
  · intro h
    simp [MarkovChainClient.generate, MarkovChainClient.serialize, MarkovChainClient.post, hq, h,
      isApiError]

/-- A mock transport that always completes with HTTP 500 and the body
server error. -/
def mockErrorHttp : HttpOracle :=
  fun _ _ => Except.ok (Response.mk 500 "server error")

/-- A concrete valid input payload. -/
def examplePayload : InputPayload :=
  InputPayload.mk (ContentString.mk "qweasd123")

/-- A concrete generate payload with both fields absent. -/
def exampleGenPayload : GeneratePayload :=
  GeneratePayload.mk none none

/-- Witness for claim C2 at a concrete mock: against a service that
answers 500 with body server error, the submit operation returns the
matching Error::Api. -/
theorem claim_C2_witness :
    MarkovChainClient.input exampleBase mockErrorHttp examplePayload
      = Except.error (Error.api 500 "server error") :=
  (claim_C2 exampleBase mockErrorHttp examplePayload exampleGenPayload
    (Response.mk 500 "server error") (Response.mk 500 "server error") rfl rfl).1 rfl

/-- Claim C3: ContentString::new fails with Empty exactly when the
UTF-8 byte length is 0, fails with TooLong (carrying that length and
max 2000) exactly when the byte length exceeds 2000, and has no other
failure case. -/
theorem claim_C3 (s : String) :
    (ContentString.new s = Except.error ContentStringError.empty ↔ s.utf8ByteSize = 0)
    ∧ (∀ L M, ContentString.new s = Except.error (ContentStringError.tooLong L M)
        ↔ (L = s.utf8ByteSize ∧ M = 2000 ∧ 2000 < s.utf8ByteSize))
    ∧ (∀ e, ContentString.new s = Except.error e
        → e = ContentStringError.empty
          ∨ e = ContentStringError.tooLong s.utf8ByteSize 2000) := by
  unfold ContentString.new ContentString.MAX_LEN
  by_cases h0 : s.utf8ByteSize = 0
  · simp [h0]
  · by_cases h1 : s.utf8ByteSize > 2000
    · simp [h0, h1]
      intro L M
      omega
    · simp [h0, h1]

/-- Witness for claim C3: the empty string has byte length 0 and
construction fails with Empty. -/
theorem claim_C3_witness :
    ContentString.new "" = Except.error ContentStringError.empty :=
  (claim_C3 "").1.mpr rfl

/-- Claim C4: for every string whose UTF-8 byte length lies in
[1, 2000], ContentString::new succeeds and as_str on the result returns
exactly the original string, unchanged. -/
theorem claim_C4 (s : String) (h1 : 1 ≤ s.utf8ByteSize) (h2 : s.utf8ByteSize ≤ 2000) :
    ∃ c, ContentString.new s = Except.ok c ∧ ContentString.as_str c = s := by
  refine ⟨ContentString.mk s, ?_, rfl⟩
  unfold ContentString.new ContentString.MAX_LEN
  have h0 : ¬ s.utf8ByteSize = 0 := by omega
  have hh : ¬ s.utf8ByteSize > 2000 := by omega
  simp [h0, hh]

/-- Witness for claim C4 at the string abc (3 bytes). -/
theorem claim_C4_witness :
    1 ≤ ("abc" : String).utf8ByteSize ∧ ("abc" : String).utf8ByteSize ≤ 2000
    ∧ ∃ c, ContentString.new "abc" = Except.ok c ∧ ContentString.as_str c = "abc" :=
  ⟨by decide, by decide, claim_C4 "abc" (by decide) (by decide)⟩

/-- Claim C5: the serialization of every GeneratePayload emits exactly
the two keys start and max_length, an absent field serializes as JSON
null, and the all-absent payload renders to the expected JSON text. -/
theorem claim_C5 :
    (∀ p : GeneratePayload, Json.keys (GeneratePayload.toJson p) = ["start", "max_length"])
    ∧ (∀ p : GeneratePayload, p.start = none →
        Json.lookupKey (GeneratePayload.toJson p) "start" = some Json.null)
    ∧ (∀ p : GeneratePayload, p.max_length = none →
        Json.lookupKey (GeneratePayload.toJson p) "max_length" = some Json.null)
    ∧ Json.render (GeneratePayload.toJson (GeneratePayload.mk none none))
        = "\x7b\"start\":null,\"max_length\":null\x7d" := by
  refine ⟨fun p => rfl, ?_, ?_, ?_⟩
  · intro p h
    simp only [GeneratePayload.toJson]
    rw [h]
    rfl
  · intro p h
    simp only [GeneratePayload.toJson]
    rw [h]
    rfl
  · rfl

/-- Witness for claim C5: both null-field facts applied at the concrete
all-absent payload. -/
theorem claim_C5_witness :
    Json.lookupKey (GeneratePayload.toJson (GeneratePayload.mk none none)) "start"
      = some Json.null
    ∧ Json.lookupKey (GeneratePayload.toJson (GeneratePayload.mk none none)) "max_length"
      = some Json.null :=
  ⟨claim_C5.2.1 (GeneratePayload.mk none none) rfl,
   claim_C5.2.2.1 (GeneratePayload.mk none none) rfl⟩

/-- Claim C6: every ContentString serializes as the plain JSON string
of its contents, whose rendering is exactly the JSON string literal of
the contents, never a wrapped or tagged structure. -/
theorem claim_C6 (c : ContentString) :
    ContentString.toJson c = Json.str (ContentString.as_str c)
    ∧ Json.render (ContentString.toJson c)
        = "\"" ++ escapeJsonString (ContentString.as_str c) ++ "\""
    ∧ Json.isStr (ContentString.toJson c) = true :=
  ⟨rfl, rfl, rfl⟩

/-- Claim C7: whenever the HTTP exchange performed by generate
completes with a success status, generate returns exactly the full
response body text, verbatim. -/
theorem claim_C7 (addr : Url) (http : HttpOracle) (q : GeneratePayload) (r : Response)
    (h : http (MarkovChainClient.generateEndpoint addr)
          (Json.render (GeneratePayload.toJson q)) = Except.ok r)
    (hs : statusIsSuccess r.status = true) :
    MarkovChainClient.generate addr http q = Except.ok r.body := by
  simp [MarkovChainClient.generate, MarkovChainClient.serialize, MarkovChainClient.post, h, hs]

/-- A mock transport that always completes with HTTP 200 and the body
generated text. -/
def mockGenerateHttp : HttpOracle :=
  fun _ _ => Except.ok (Response.mk 200 "generated text")

/-- Witness for claim C7 at a concrete mock: against a service that
answers 200 with body generated text, generate returns that text. -/
theorem claim_C7_witness :
    MarkovChainClient.generate exampleBase mockGenerateHttp (GeneratePayload.mk none none)
      = Except.ok "generated text" :=
  claim_C7 exampleBase mockGenerateHttp (GeneratePayload.mk none none)
    (Response.mk 200 "generated text") rfl rfl

/-- Claim C8: serializing any well-formed InputPayload or
GeneratePayload succeeds, so the Error::Json branch of
MarkovChainClient::serialize is unreachable on these payloads. -/
theorem claim_C8 :
    (∀ p : InputPayload, ∃ s, MarkovChainClient.serialize (InputPayload.toJson p) = Except.ok s)
    ∧ (∀ q : GeneratePayload,
        ∃ s, MarkovChainClient.serialize (GeneratePayload.toJson q) = Except.ok s) :=
  ⟨fun p => ⟨Json.render (InputPayload.toJson p), rfl⟩,
   fun q => ⟨Json.render (GeneratePayload.toJson q), rfl⟩⟩

/-- Claim C9: when ContentString::new succeeds, into_inner returns
exactly the original string and as_str views the same text that
into_inner yields. -/
theorem claim_C9 (s : String) (c : ContentString) (h : ContentString.new s = Except.ok c) :
    ContentString.into_inner c = s ∧ ContentString.as_str c = ContentString.into_inner c := by
  unfold ContentString.new at h
  have hc : c = ContentString.mk s := by
    by_cases h0 : s.utf8ByteSize = 0
    · simp [h0] at h
    · by_cases h1 : s.utf8ByteSize > ContentString.MAX_LEN
      · simp [h0, h1] at h
      · simp [h0, h1] at h
        exact h.symm
  subst hc
  exact ⟨rfl, rfl⟩

/-- Witness for claim C9 at the string abc. -/
theorem claim_C9_witness :
    ContentString.new "abc" = Except.ok (ContentString.mk "abc")
    ∧ ContentString.into_inner (ContentString.mk "abc") = "abc"
    ∧ ContentString.as_str (ContentString.mk "abc")
        = ContentString.into_inner (ContentString.mk "abc") :=
  ⟨rfl, claim_C9 "abc" (ContentString.mk "abc") rfl⟩

/-- Claim C10: the TryFrom conversions for owned strings and for string
slices agree with ContentString::new on every input, succeeding or
failing identically. -/
theorem claim_C10 (s : String) :
    ContentString.tryFromString s = ContentString.new s
    ∧ ContentString.tryFromStr s = ContentString.new s :=
  ⟨rfl, rfl⟩
